import Mathlib

/-!
Verification of the `ai-tool-gen-lab` C unit-test generator against its
natural-language specification.

The development shallowly embeds the Python sources:
  * `ai_c_test_generator/validator.py` — `TestValidator._check_reality_tests`
    and `TestValidator._calculate_quality_rating`;
  * `ai_c_test_generator/generator.py` — `SmartTestGenerator._post_process_test_code`,
    `SmartTestGenerator._try_generate_with_fallback`, and the exception flow of
    `SmartTestGenerator.generate_tests_for_file`;
  * `ai_c_test_generator/cli.py` — the per-file regeneration loop of `main`
    and its `.c`-file collection.

Text is modelled as `List Char`.  Every Python `re.sub` / `re.findall` /
`re.search` call is hand-compiled to a deterministic left-to-right scanner
that reproduces the Python regex engine's leftmost, greedy-with-backtracking
behaviour for the specific pattern in question (each pattern is simple enough
for the backtracking to be resolved statically; the resolution is commented at
each scanner).  Python exceptions are modelled with `Except`.
-/

/-! ## Generic text helpers (Python string primitives) -/

/-- Python `\s` (ASCII whitespace as the `re` module sees it on this input). -/
def pyIsSpace (c : Char) : Bool :=
  c = ' ' || c = '\t' || c = '\n' || c = '\r' || c = '\x0b' || c = '\x0c'

/-- Python regex `\w`: `[a-zA-Z0-9_]` on ASCII text. -/
def isWordChar (c : Char) : Bool :=
  c.isAlphanum || c = '_'

/-- Word-character test on an optional lookahead character; `none` (end of
string) counts as a non-word position. -/
def isWordOpt : Option Char → Bool
  | none => false
  | some c => isWordChar c

/-- Python `str.lower()` on ASCII text. -/
def pyLower (s : List Char) : List Char :=
  s.map Char.toLower

/-- Does `pat` start the list `s`?  (Python regex literal match at a position.) -/
def listStartsWith : List Char → List Char → Bool
  | [], _ => true
  | _ :: _, [] => false
  | p :: ps, c :: cs => p = c && listStartsWith ps cs

/-- Python `sub in s` (substring containment). -/
def pyContains (pat : List Char) : List Char → Bool
  | [] => listStartsWith pat []
  | c :: cs => listStartsWith pat (c :: cs) || pyContains pat cs

/-- Python `s.endswith(suffix)`. -/
def pyEndsWith (suffix s : List Char) : Bool :=
  listStartsWith suffix.reverse s.reverse

/-- Python `str.strip()` (strip leading and trailing whitespace). -/
def pyStrip (s : List Char) : List Char :=
  ((s.dropWhile pyIsSpace).reverse.dropWhile pyIsSpace).reverse

/-- Python `str.split("\n")`. -/
def splitNl (s : List Char) : List (List Char) :=
  s.splitOn '\n'

/-- Python `"\n".join(lines)`. -/
def joinNl (lines : List (List Char)) : List Char :=
  List.intercalate ['\n'] lines

/-- Split a list at the first character satisfying `p`: returns the prefix of
characters not satisfying `p` and the remainder (which starts with a character
satisfying `p`); `none` when no such character exists.  This implements the
greedy `[^X]*` / `[^X]+` parts of the Python patterns below. -/
def splitAtFirst (p : Char → Bool) (s : List Char) : Option (List Char × List Char) :=
  match s.dropWhile (fun c => !p c) with
  | [] => none
  | c :: cs => some (s.takeWhile (fun c => !p c), c :: cs)

/-- Match a literal pattern at the head of `s`, returning the remainder. -/
def lit (pat s : List Char) : Option (List Char) :=
  if listStartsWith pat s then some (s.drop pat.length) else none

/-- Python regex `\s*` at the head of `s` (greedy). -/
def dropWs (s : List Char) : List Char :=
  s.dropWhile pyIsSpace

/-- Python regex `\s+` at the head of `s` (greedy, at least one). -/
def wsPlus : List Char → Option (List Char)
  | [] => none
  | c :: cs => if pyIsSpace c then some (cs.dropWhile pyIsSpace) else none

/-- Parse a non-empty run of decimal digits as a natural number
(Python `int(...)` on a `\d+` group). -/
def decimalNat (digits : List Char) : Nat :=
  digits.foldl (fun acc c => acc * 10 + (c.toNat - '0'.toNat)) 0

/-! ## Scan drivers (Python `re.sub` / `re.findall` / `re.search` loops)

`re.sub` scans left to right; at each position it either applies the (never
empty-width, for every pattern used here) match step — emitting the
replacement and resuming after the matched span — or copies one character and
moves on.  The fuel argument is the length of the text, which bounds the
number of scan positions. -/

/-- One `re.sub` scan.  `step s` returns `some (replacement, remainder)` when
the pattern matches at the head of `s` (consuming at least one character). -/
def rewriteScan (step : List Char → Option (List Char × List Char)) :
    Nat → List Char → List Char
  | 0, s => s
  | _ + 1, [] => []
  | fuel + 1, c :: rest =>
    match step (c :: rest) with
    | some (repl, rem) => repl ++ rewriteScan step fuel rem
    | none => c :: rewriteScan step fuel rest

/-- Python `re.sub(pattern, repl, s)` for a context-free pattern. -/
def pySub (step : List Char → Option (List Char × List Char)) (s : List Char) :
    List Char :=
  rewriteScan step s.length s

/-- One `re.sub` scan for a pattern that inspects the previous character
(`^` with `re.MULTILINE`, or a leading `\b`).  `step prev s` receives the
character preceding the current position (`none` at the start of the text). -/
def rewriteScanCtx (step : Option Char → List Char → Option (List Char × List Char)) :
    Nat → Option Char → List Char → List Char
  | 0, _, s => s
  | _ + 1, _, [] => []
  | fuel + 1, prev, c :: rest =>
    match step prev (c :: rest) with
    | some (repl, rem) =>
      let consumed := (c :: rest).take ((c :: rest).length - rem.length)
      let prev' := match consumed.getLast? with
        | some d => some d
        | none => prev
      repl ++ rewriteScanCtx step fuel prev' rem
    | none => c :: rewriteScanCtx step fuel (some c) rest

/-- Python `re.sub` for a pattern needing the previous character. -/
def pySubCtx (step : Option Char → List Char → Option (List Char × List Char))
    (s : List Char) : List Char :=
  rewriteScanCtx step s.length none s

/-- Python `re.findall` with one capture group: `step s` returns
`some (group, remainder-after-whole-match)` on a match at the head of `s`. -/
def findallScan (step : List Char → Option (List Char × List Char)) :
    Nat → List Char → List (List Char)
  | 0, _ => []
  | _ + 1, [] => []
  | fuel + 1, c :: rest =>
    match step (c :: rest) with
    | some (g, rem) => g :: findallScan step fuel rem
    | none => findallScan step fuel rest

/-- Python `re.findall`. -/
def pyFindall (step : List Char → Option (List Char × List Char)) (s : List Char) :
    List (List Char) :=
  findallScan step s.length s

/-- Python `re.search` truthiness: does the position predicate hold at any
suffix?  (None of the searched patterns can match the empty string at the end.) -/
def searchScan (step : List Char → Bool) : List Char → Bool
  | [] => false
  | c :: rest => step (c :: rest) || searchScan step rest

/-! ## `validator.py` : `TestValidator._calculate_quality_rating` -/

/-- The fields of the `validation_result` dict manipulated by the modelled
checks (`file`, `keep`, `fix`, `remove` are carried by the Python dict but
never read or written by the functions embedded here). -/
structure ValidationResult where
  compiles : Bool
  realistic : Bool
  quality : String
  issues : List (List Char)
deriving DecidableEq

/-- `TestValidator._calculate_quality_rating` (validator.py lines 361-370). -/
def calculate_quality_rating (result : ValidationResult) : String :=
  let issues := result.issues.length
  if issues = 0 && result.compiles && result.realistic then "High"
  else if issues ≤ 2 && result.compiles then "Medium"
  else "Low"

/-! ## `generator.py` : `SmartTestGenerator._post_process_test_code`

Each `re.sub` of the Python function becomes one match step below, in source
order.  Comments record how the greedy backtracking of the original pattern
resolves. -/

/-- Replacement text `"0.0f"` used by several passes. -/
def zeroF : List Char := "0.0f".data

/-- `re.sub(r'^```c?\s*', '', ..., flags=re.MULTILINE)`: at a line start
(start of text or after a newline), strip three backticks, an optional `c`,
and the following whitespace run (greedy `\s*`, which crosses newlines). -/
def stepFenceOpen (prev : Option Char) (s : List Char) :
    Option (List Char × List Char) :=
  if prev = none || prev = some '\n' then
    match lit "```".data s with
    | some r1 =>
      let r2 := match r1 with
        | 'c' :: t => t
        | t => t
      some ([], dropWs r2)
    | none => none
  else none

/-- `re.sub(r'```\s*$', '', ..., flags=re.MULTILINE)`: three backticks whose
trailing whitespace run ends the text or reaches a newline.  Greedy `\s*`
backtracks until `$` (end of text, or just before a `\n`) holds, i.e. it
consumes the whole run when the run ends the text, and otherwise stops just
before the last newline of the run (no match if the run has no newline). -/
def stepFenceClose (s : List Char) : Option (List Char × List Char) :=
  match lit "```".data s with
  | some r =>
    let run := r.takeWhile pyIsSpace
    let rest := r.dropWhile pyIsSpace
    if rest.isEmpty then some ([], [])
    else if run.contains '\n' then
      some ([], '\n' :: (run.reverse.takeWhile (fun c => c ≠ '\n')).reverse ++ rest)
    else none
  | none => none

/-- Strip the leading whitespace a greedy `\s*` takes from the front of a
captured `[^X]+` group; when the whole segment is whitespace the `\s*`
backtracks one character so that the group keeps exactly its last character. -/
def groupAfterWs (seg : List Char) : List Char :=
  match seg.dropWhile pyIsSpace with
  | [] => match seg.getLast? with
    | some c => [c]
    | none => []
  | g => g

/-- `re.sub(r'TEST_ASSERT_EQUAL_FLOAT\s*\(\s*([^,]+)\s*,\s*([^)]+)\s*\)',
r'TEST_ASSERT_FLOAT_WITHIN(0.01f, \1, \2)', ...)`.  Group 1 runs to the first
comma, group 2 to the first closing parenthesis; the `\s*` before each group
takes the leading whitespace and the `\s*` after each group is forced empty by
the group's greediness. -/
def stepEqualFloat (s : List Char) : Option (List Char × List Char) :=
  match lit "TEST_ASSERT_EQUAL_FLOAT".data s with
  | none => none
  | some r1 =>
    match lit "(".data (dropWs r1) with
    | none => none
    | some r2 =>
      match splitAtFirst (fun c => c = ',') r2 with
      | none => none
      | some (seg1, r3) =>
        if seg1.isEmpty then none
        else
          match splitAtFirst (fun c => c = ')') (r3.drop 1) with
          | none => none
          | some (seg2, r4) =>
            if seg2.isEmpty then none
            else
              some ("TEST_ASSERT_FLOAT_WITHIN(0.01f, ".data ++ groupAfterWs seg1 ++
                    ", ".data ++ groupAfterWs seg2 ++ ")".data,
                    r4.drop 1)

/-- A plain-literal `re.sub` (the four Unity macro-name fixes). -/
def stepLit (pat repl : List Char) (s : List Char) : Option (List Char × List Char) :=
  (lit pat s).map (fun rem => (repl, rem))

/-- `re.sub(r'-273\.15f?', '-40.0f', ...)`. -/
def step273 (s : List Char) : Option (List Char × List Char) :=
  match lit "-273.15".data s with
  | some r =>
    match r with
    | 'f' :: t => some ("-40.0f".data, t)
    | t => some ("-40.0f".data, t)
  | none => none

/-- `re.sub(r'1e10+', '1000.0f', ...)`: literal `1e1` followed by one or more
`0`s (greedy). -/
def step1e10 (s : List Char) : Option (List Char × List Char) :=
  match lit "1e1".data s with
  | some r =>
    match r with
    | '0' :: t => some ("1000.0f".data, t.dropWhile (fun c => c = '0'))
    | _ => none
  | none => none

/-- `re.sub(r'(stub_rand_instance\.return_value\s*=\s*)(\d+)(;)', lambda ..., ...)`:
clamp the assigned literal to 1023 when it exceeds 1023, otherwise leave the
match unchanged. -/
def stepStubRand (s : List Char) : Option (List Char × List Char) :=
  match lit "stub_rand_instance.return_value".data s with
  | none => none
  | some r1 =>
    let ws1 := r1.takeWhile pyIsSpace
    match lit "=".data (dropWs r1) with
    | none => none
    | some r2 =>
      let ws2 := r2.takeWhile pyIsSpace
      let r3 := dropWs r2
      let digits := r3.takeWhile Char.isDigit
      match r3.dropWhile Char.isDigit with
      | ';' :: t =>
        if digits.isEmpty then none
        else if decimalNat digits > 1023 then
          some ("stub_rand_instance.return_value".data ++ ws1 ++ "=".data ++ ws2 ++
                "1023;".data, t)
        else
          some ("stub_rand_instance.return_value".data ++ ws1 ++ "=".data ++ ws2 ++
                digits ++ ";".data, t)
      | _ => none

/-- `re.sub(r"-\d+\.?\d*f?\b", "0.0f", ...)`.  The backtracking of
`\.?\d*f?\b` resolves as follows (the leading digit run `\d+` is always kept
maximal, since shrinking it places `\b` between two digits):
  * after the digits `d1`, a `.` and a maximal digit run `d2` and an `f` are
    taken greedily when present, and the final `\b` is checked;
  * when `\b` fails there, the alternatives are tried in backtracking order —
    drop the `f`, then shrink `d2` (only `d2 := empty` can ever succeed, with
    the boundary between `.` and a digit), then drop the `.` (boundary
    between a digit and the `.`). -/
def stepNeg (s : List Char) : Option (List Char × List Char) :=
  match s with
  | '-' :: rest =>
    let d1 := rest.takeWhile Char.isDigit
    let p := rest.dropWhile Char.isDigit
    if d1.isEmpty then none
    else
      match p with
      | '.' :: q =>
        let d2 := q.takeWhile Char.isDigit
        let r := q.dropWhile Char.isDigit
        if d2.isEmpty then
          match r with
          | 'f' :: t =>
            if isWordOpt t.head? then some (zeroF, 'f' :: t) else some (zeroF, t)
          | _ =>
            if isWordOpt r.head? then some (zeroF, r) else some (zeroF, '.' :: q)
        else
          match r with
          | 'f' :: t =>
            if isWordOpt t.head? then some (zeroF, d2 ++ 'f' :: t)
            else some (zeroF, t)
          | _ =>
            if isWordOpt r.head? then some (zeroF, d2 ++ r) else some (zeroF, r)
      | 'f' :: t =>
        if isWordOpt t.head? then none else some (zeroF, t)
      | _ =>
        if isWordOpt p.head? then none else some (zeroF, p)
  | _ => none

/-- `re.sub(r"\bmain\s*\(\s*\)\s*;", "", ...)`: `main` at a word boundary,
then `(`, `)`, `;` separated by optional whitespace. -/
def stepMainCall (prev : Option Char) (s : List Char) :
    Option (List Char × List Char) :=
  if isWordOpt prev then none
  else
    match lit "main".data s with
    | none => none
    | some r1 =>
      match lit "(".data (dropWs r1) with
      | none => none
      | some r2 =>
        match lit ")".data (dropWs r2) with
        | none => none
        | some r3 =>
          match lit ";".data (dropWs r3) with
          | none => none
          | some r4 => some ([], r4)

/-- `re.sub(r"int\s+main\s*\([^)]*\)\s*{[^}]*}", "", ..., flags=re.DOTALL)`:
`int`, whitespace, `main`, a parenthesised parameter list without `)`, then a
brace block without `}` (both runs greedy; `re.DOTALL` is irrelevant since the
pattern contains no `.`). -/
def stepMainDef (s : List Char) : Option (List Char × List Char) :=
  match lit "int".data s with
  | none => none
  | some r1 =>
    match wsPlus r1 with
    | none => none
    | some r2 =>
      match lit "main".data r2 with
      | none => none
      | some r3 =>
        match lit "(".data (dropWs r3) with
        | none => none
        | some r4 =>
          match splitAtFirst (fun c => c = ')') r4 with
          | none => none
          | some (_, r5) =>
            match lit "\x7b".data (dropWs (r5.drop 1)) with
            | none => none
            | some r6 =>
              match splitAtFirst (fun c => c = '}') r6 with
              | none => none
              | some (_, r7) => some ([], r7.drop 1)

/-- `re.sub(r"printf\s*\([^;]*\);\s*", "", ...)` (and the same for `scanf`):
the `[^;]*` runs to the first semicolon, whose immediately preceding character
must be `)` (the only split the backtracking admits); trailing whitespace is
swallowed greedily. -/
def stepConsoleIo (name : List Char) (s : List Char) :
    Option (List Char × List Char) :=
  match lit name s with
  | none => none
  | some r1 =>
    match lit "(".data (dropWs r1) with
    | none => none
    | some r2 =>
      match splitAtFirst (fun c => c = ';') r2 with
      | none => none
      | some (seg, r3) =>
        match seg.getLast? with
        | some ')' => some ([], dropWs (r3.drop 1))
        | _ => none

/-- `re.match(r"#include\s+[\"<]([^\">]+)[\">]", line)`: returns the captured
header name when the line is an include directive. -/
def matchIncludeLine (line : List Char) : Option (List Char) :=
  match lit "#include".data line with
  | none => none
  | some r1 =>
    match wsPlus r1 with
    | none => none
    | some r2 =>
      match r2 with
      | c :: r3 =>
        if c = '"' || c = '<' then
          let h := r3.takeWhile (fun d => !(d = '"' || d = '>'))
          let rest := r3.dropWhile (fun d => !(d = '"' || d = '>'))
          if h.isEmpty || rest.isEmpty then none else some h
        else none
      | [] => none

/-- The include line the post-processor inserts when missing. -/
def unityIncludeLine : List Char := "#include \"unity.h\"".data

/-- One iteration of the include-filter loop of `_post_process_test_code`:
keep any line containing the Unity include; for other `#include` lines keep
only headers present in the source's includes or ending in `.h` (dropping a
`main.h` the source does not mention); keep every non-include line. -/
def keepLine (source_includes : List (List Char)) (line : List Char) : Bool :=
  if pyContains unityIncludeLine line then true
  else if listStartsWith "#include".data line then
    match matchIncludeLine line with
    | some header =>
      if source_includes.contains header || pyEndsWith ".h".data header then
        if header = "main.h".data &&
            !(source_includes.any (fun inc => pyContains "main.h".data inc)) then
          false
        else true
      else false
    | none => false
  else true

/-- `re.findall(r"void\s+(test_\w+)\s*\(", ...)`: capture the test-function
names, in discovery order. -/
def stepTestFn (s : List Char) : Option (List Char × List Char) :=
  match lit "void".data s with
  | none => none
  | some r1 =>
    match wsPlus r1 with
    | none => none
    | some r2 =>
      match lit "test_".data r2 with
      | none => none
      | some r3 =>
        let w := r3.takeWhile isWordChar
        if w.isEmpty then none
        else
          match lit "(".data (dropWs (r3.dropWhile isWordChar)) with
          | none => none
          | some r4 => some ("test_".data ++ w, r4)

/-- The synthesized Unity test runner appended by `_post_process_test_code`. -/
def unityMainFunction (test_functions : List (List Char)) : List Char :=
  "\n\nint main(void) \x7b\n    UNITY_BEGIN();\n\n".data ++
  (test_functions.foldr (fun f acc => "    RUN_TEST(".data ++ f ++ ");\n".data ++ acc) []) ++
  "\n    return UNITY_END();\n\x7d".data

/-- `SmartTestGenerator._post_process_test_code` (generator.py lines 411-498):
the output normalizer, pass for pass in source order. -/
def post_process_test_code (source_includes : List (List Char))
    (test_code : List Char) : List Char :=
  let t1 := pySubCtx stepFenceOpen test_code
  let t2 := pySub stepFenceClose t1
  let t3 := pySub stepEqualFloat t2
  let t4 := pySub (stepLit "TEST_ASSERT_GREATER_THAN_EQUAL_INT".data
    "TEST_ASSERT_GREATER_OR_EQUAL_INT".data) t3
  let t5 := pySub (stepLit "TEST_ASSERT_LESS_THAN_EQUAL_INT".data
    "TEST_ASSERT_LESS_OR_EQUAL_INT".data) t4
  let t6 := pySub (stepLit "TEST_ASSERT_GREATER_THAN_INT".data
    "TEST_ASSERT_GREATER_OR_EQUAL_INT".data) t5
  let t7 := pySub (stepLit "TEST_ASSERT_LESS_THAN_INT".data
    "TEST_ASSERT_LESS_OR_EQUAL_INT".data) t6
  let t8 := pySub step273 t7
  let t9 := pySub step1e10 t8
  let t10 := pySub stepStubRand t9
  let t11 := pySub stepNeg t10
  let t12 := pySubCtx stepMainCall t11
  let t13 := pySub stepMainDef t12
  let t14 := pySub (stepConsoleIo "printf".data) t13
  let t15 := pySub (stepConsoleIo "scanf".data) t14
  let cleaned := (splitNl t15).filter (keepLine source_includes)
  let cleaned2 :=
    if cleaned.any (fun line => pyContains unityIncludeLine line) then cleaned
    else unityIncludeLine :: cleaned
  let joined := joinNl cleaned2
  let tests := pyFindall stepTestFn joined
  if tests.isEmpty then joined else joined ++ unityMainFunction tests

/-- The negative-literal rewriting pass of the normalizer in isolation
(generator.py line 443). -/
def sub_negative_numbers (s : List Char) : List Char :=
  pySub stepNeg s

/-- Does the text contain a match of the negative-numeric-literal pattern
`-\d+\.?\d*f?\b` anywhere? -/
def has_negative_literal (s : List Char) : Bool :=
  searchScan (fun t => (stepNeg t).isSome) s

/-! ## `validator.py` : `TestValidator._check_reality_tests` -/

/-- A source-function record as produced by `DependencyAnalyzer._extract_functions`
(the `source_functions` argument of the reality check, which the check's body
never reads). -/
structure SourceFunction where
  name : String
  return_type : String
  signature : String

/-- The issue string for exact-equality float assertions. -/
def realityMsgEqualFloat : List Char :=
  "TEST_ASSERT_EQUAL_FLOAT used - will fail due to precision. Use TEST_ASSERT_FLOAT_WITHIN instead".data

/-- `re.search(r'NULL.*=.*[^=!].*NULL', line)` truthiness at one position:
`NULL`, then (anywhere rightwards, `.` crossing no newline — lines contain
none) a `=`, then a character other than `=` / `!`, then `NULL` again. -/
def matchNullAt (t : List Char) : Bool :=
  listStartsWith "NULL".data t &&
  searchScan (fun u =>
    match u with
    | '=' :: r =>
      searchScan (fun v =>
        match v with
        | c :: w => !(c = '=' || c = '!') && searchScan (fun z => listStartsWith "NULL".data z) w
        | [] => false) r
    | _ => false) (t.drop 4)

/-- The `impossible_patterns` table of `_check_reality_tests`: a position
matcher for each regex, paired with its description. -/
def impossiblePatterns : List ((List Char → Bool) × List Char) :=
  [(fun t => listStartsWith "-273.15".data t || listStartsWith "273.15".data t,
    "Absolute zero temperature test - physically impossible".data),
   (fun t => listStartsWith "1e10".data t,
    "Extremely large values that may cause overflow".data),
   (matchNullAt,
    "Testing NULL assignments that may crash".data)]

/-- The inner loop of the impossible-pattern check for one (1-based) line. -/
def check_impossible_line (i : Nat) (line : List Char) (result : ValidationResult) :
    ValidationResult :=
  impossiblePatterns.foldl (fun res pd =>
    if searchScan pd.1 line then
      { res with
        issues := res.issues ++
          ["Line ".data ++ (toString i).data ++ ": ".data ++ pd.2 ++
           " - unrealistic test scenario".data],
        realistic := false }
    else res) result

/-- Does `NAME\s*\([^)]+\)` match at this position (used with
`TEST_ASSERT_FLOAT_WITHIN` and `TEST_ASSERT_EQUAL_FLOAT`; `re.findall`
nonemptiness only needs existence)? -/
def stepAssertCall (name : List Char) (t : List Char) : Bool :=
  match lit name t with
  | none => false
  | some r1 =>
    match lit "(".data (dropWs r1) with
    | none => false
    | some r2 =>
      match splitAtFirst (fun c => c = ')') r2 with
      | none => false
      | some (seg, _) => !seg.isEmpty

/-- Greedy match of the numeric group `(\d+\.?\d*)` at the head of `s`:
returns the captured text and the remainder. -/
def munchNumGroup (s : List Char) : Option (List Char × List Char) :=
  let d1 := s.takeWhile Char.isDigit
  let r := s.dropWhile Char.isDigit
  if d1.isEmpty then none
  else
    match r with
    | '.' :: q => some (d1 ++ '.' :: q.takeWhile Char.isDigit, q.dropWhile Char.isDigit)
    | _ => some (d1, r)

/-- `re.findall(r'return_value\s*=\s*(\d+\.?\d*)f?', ...)` match step. -/
def stepTempP1 (s : List Char) : Option (List Char × List Char) :=
  match lit "return_value".data s with
  | none => none
  | some r1 =>
    match lit "=".data (dropWs r1) with
    | none => none
    | some r2 =>
      match munchNumGroup (dropWs r2) with
      | none => none
      | some (g, r3) =>
        match r3 with
        | 'f' :: t => some (g, t)
        | t => some (g, t)

/-- `re.findall(r'TEST_ASSERT_FLOAT_WITHIN\s*\([^,]+,\s*(\d+\.?\d*)f?', ...)`
match step (the `[^,]+` runs to the first comma). -/
def stepTempP2 (s : List Char) : Option (List Char × List Char) :=
  match lit "TEST_ASSERT_FLOAT_WITHIN".data s with
  | none => none
  | some r1 =>
    match lit "(".data (dropWs r1) with
    | none => none
    | some r2 =>
      match splitAtFirst (fun c => c = ',') r2 with
      | none => none
      | some (seg, r3) =>
        if seg.isEmpty then none
        else
          match munchNumGroup (dropWs (r3.drop 1)) with
          | none => none
          | some (g, r4) =>
            match r4 with
            | 'f' :: t => some (g, t)
            | t => some (g, t)

/-- `re.findall(r'(\d+\.?\d*)f?\s*,\s*temp', ...)` match step.  The group is
munched greedily; when the tail `f?\s*,\s*temp` then fails, every backtracking
alternative also fails (shrinking a digit run leaves a digit where `,` is
required, and dropping the `.` leaves the `.` there), so the step is
deterministic. -/
def stepTempP3 (s : List Char) : Option (List Char × List Char) :=
  match munchNumGroup s with
  | none => none
  | some (g, r1) =>
    let r2 := match r1 with
      | 'f' :: t => t
      | t => t
    match lit ",".data (dropWs r2) with
    | none => none
    | some r3 =>
      match lit "temp".data (dropWs r3) with
      | none => none
      | some r4 => some (g, r4)

/-- Numeric value of a captured `\d+\.?\d*` group (Python `float(val)`; the
comparisons the validator makes with it are exact at these magnitudes).  The
value `ip.fp` is the exact rational `(ip·10^k + fp) / 10^k` with `k` the
number of fractional digits. -/
def parseTempVal (val : List Char) : ℚ :=
  let ip := val.takeWhile Char.isDigit
  let rest := val.dropWhile Char.isDigit
  let fp := match rest with
    | '.' :: q => q
    | _ => []
  mkRat (decimalNat ip * 10 ^ fp.length + decimalNat fp) (10 ^ fp.length)

/-- Decimal rendering of Python `float(val)` as interpolated into the issue
strings (`str(float(val))`), for the plain-decimal magnitudes the validator
handles: leading zeros of the integer part and trailing zeros of the
fractional part are dropped, each part defaulting to `0`. -/
def pyFloatRepr (val : List Char) : List Char :=
  let ip := val.takeWhile Char.isDigit
  let rest := val.dropWhile Char.isDigit
  let fp := match rest with
    | '.' :: q => q
    | _ => []
  let ipN := match ip.dropWhile (fun c => c = '0') with
    | [] => ['0']
    | l => l
  let fpN := match (fp.reverse.dropWhile (fun c => c = '0')).reverse with
    | [] => ['0']
    | l => l
  ipN ++ '.' :: fpN

/-- The raw-ADC-context exclusion of the temperature check: find the first
line containing the literal together with a `rand` / `stub_rand` /
`return_value` marker; the value is skipped when such a line exists (its
lowercased text then necessarily still carries one of the markers). -/
def temp_context_skip (content val : List Char) : Bool :=
  match (splitNl content).find? (fun line =>
      pyContains val line &&
      (pyContains "rand".data (pyLower line) || pyContains "stub_rand".data line ||
       pyContains "return_value".data line)) with
  | some l =>
    let ctx := pyLower l
    pyContains "rand".data ctx || pyContains "stub_rand".data ctx ||
    pyContains "return_value".data ctx
  | none => false

/-- Processing of one captured temperature literal: skip plausible raw ADC
values in `rand`-stub context, then flag values above 200 or below −100. -/
def check_temp_value (content : List Char) (result : ValidationResult)
    (val : List Char) : ValidationResult :=
  let temp := parseTempVal val
  let skip : Bool :=
    if 0 ≤ temp ∧ temp ≤ 1023 then temp_context_skip content val else false
  if skip then result
  else if temp > 200 then
    { result with
      issues := result.issues ++
        ["Temperature value ".data ++ pyFloatRepr val ++
         " seems unreasonably high (valid range: -40°C to 125°C)".data],
      realistic := false }
  else if temp < -100 then
    { result with
      issues := result.issues ++
        ["Temperature value ".data ++ pyFloatRepr val ++
         " seems unreasonably low (valid range: -40°C to 125°C)".data],
      realistic := false }
  else result

/-- The temperature section of `_check_reality_tests` (guarded by a
`temperature` / `celsius` mention in the lowercased text). -/
def check_reality_temps (content : List Char) (result : ValidationResult) :
    ValidationResult :=
  if pyContains "temperature".data (pyLower content) ||
      pyContains "celsius".data (pyLower content) then
    [stepTempP1, stepTempP2, stepTempP3].foldl (fun res step =>
      (pyFindall step content).foldl (check_temp_value content) res) result
  else result

/-- `TestValidator._check_reality_tests` (validator.py lines 134-200): the
reality checks, in source order.  The `source_functions` argument is received
but never read by the Python body. -/
def check_reality_tests (test_content : List Char)
    (source_functions : List SourceFunction) (result : ValidationResult) :
    ValidationResult :=
  let r1 :=
    if pyContains "TEST_ASSERT_EQUAL_FLOAT".data test_content then
      { result with
        issues := result.issues ++ [realityMsgEqualFloat],
        realistic := false }
    else result
  let r2 := ((splitNl test_content).enum).foldl
    (fun res il => check_impossible_line (il.1 + 1) il.2 res) r1
  let floatWithins := searchScan (stepAssertCall "TEST_ASSERT_FLOAT_WITHIN".data) test_content
  let floatEquals := searchScan (stepAssertCall "TEST_ASSERT_EQUAL_FLOAT".data) test_content
  let r3 :=
    if floatEquals && !floatWithins then
      { r2 with issues := r2.issues ++ [realityMsgEqualFloat], realistic := false }
    else r2
  check_reality_temps test_content r3

/-- The freshly initialised `validation_result` dict of `validate_test_file`
(the fields the embedded checks touch). -/
def initValidationResult : ValidationResult :=
  { compiles := true, realistic := true, quality := "High", issues := [] }

/-! ## `generator.py` : `SmartTestGenerator._try_generate_with_fallback`

The backend is abstracted as `beh : String → Nat → Except (List Char) String`:
the outcome of the `n`-th call (0-based) made to the named model during one
adapter call — `.ok text` for a response, `.error msg` for an exception whose
`str(e)` is `msg`.  The retry loop only ever calls the current model (with call
indices `0, 1, …`) and the fallback loop calls each other model once (index
`0`), so the indexing is unambiguous.  `time.sleep` and `generate_content`
invocations are recorded as events so that timing and call-order claims can be
stated. -/

/-- The model preference list of `SmartTestGenerator.__init__`. -/
def models_to_try : List String :=
  ["gemini-2.5-flash", "gemini-2.5-pro", "gemini-2.0-flash", "gemini-1.5-flash",
   "gemini-1.5-pro", "gemini-pro"]

/-- The throttling signal keywords of `_try_generate_with_fallback`. -/
def rate_limit_keywords : List (List Char) :=
  ["rate limit".data, "quota".data, "limit exceeded".data,
   "resource exhausted".data, "429".data, "too many requests".data]

/-- `is_rate_limit`: does the lowercased error text contain one of the
throttling keywords? -/
def is_rate_limit (error_str : List Char) : Bool :=
  rate_limit_keywords.any (fun kw => pyContains kw error_str)

/-- `wait_time = (2 ** attempt) + 1` (generator.py line 132). -/
def wait_time (attempt : Nat) : Nat :=
  2 ^ attempt + 1

/-- An observable action of the adapter: one backend call (with its success
flag) or one `time.sleep`. -/
inductive AdapterEvent where
  | call (model : String) (success : Bool)
  | sleep (seconds : Nat)
deriving DecidableEq

/-- How the `for attempt in range(max_retries)` loop of
`_try_generate_with_fallback` ends. -/
inductive RetryOutcome where
  | success (text : String)
  | raised (error : List Char)
  | fallThrough (last_error : Option (List Char))
deriving DecidableEq

/-- The `for attempt in range(max_retries)` loop of
`_try_generate_with_fallback` from attempt index `attempt` on: return on
success; on a throttling error before the final try, sleep
`wait_time attempt` and retry the same model; on a throttling error on the
final try, fall through to the fallback loop; on any other error, raise it
immediately.  The recursion is structural on the number of remaining loop
iterations (the first argument), which at every reachable call equals
`max_retries - attempt`; when it is zero the loop has exhausted its range and
falls through, exactly as the guard `attempt < max_retries` (kept explicitly)
would decide. -/
def retry_loop (beh : String → Nat → Except (List Char) String) (model : String)
    (max_retries : Nat) :
    Nat → Nat → Option (List Char) → List AdapterEvent × RetryOutcome
  | 0, _, last_error => ([], .fallThrough last_error)
  | fuel + 1, attempt, last_error =>
    if attempt < max_retries then
      match beh model attempt with
      | .ok text => ([.call model true], .success text)
      | .error e =>
        if is_rate_limit (pyLower e) && decide (attempt < max_retries - 1) then
          let rest := retry_loop beh model max_retries fuel (attempt + 1) (some e)
          (.call model false :: .sleep (wait_time attempt) :: rest.1, rest.2)
        else if is_rate_limit (pyLower e) then
          ([.call model false], .fallThrough (some e))
        else
          ([.call model false], .raised e)
    else ([], .fallThrough last_error)

/-- The whole retry loop, from attempt 0 with no recorded error. -/
def retry_phase (beh : String → Nat → Except (List Char) String) (model : String)
    (max_retries : Nat) : List AdapterEvent × RetryOutcome :=
  retry_loop beh model max_retries max_retries 0 none

/-- The fallback loop of `_try_generate_with_fallback`: iterate
`models_to_try` in order, skipping the original model, one call each; the
first success wins and names the new sticky model. -/
def fallback_phase (beh : String → Nat → Except (List Char) String)
    (original : String) : List String → List AdapterEvent × Option (String × String)
  | [] => ([], none)
  | m :: rest =>
    if m = original then fallback_phase beh original rest
    else
      match beh m 0 with
      | .ok text => ([.call m true], some (text, m))
      | .error _ =>
        let r := fallback_phase beh original rest
        (.call m false :: r.1, r.2)

instance {ε α : Type} [DecidableEq ε] [DecidableEq α] : DecidableEq (Except ε α) :=
  fun x y =>
    match x, y with
    | .ok a, .ok b => if h : a = b then .isTrue (by rw [h]) else .isFalse (by simp [h])
    | .error a, .error b => if h : a = b then .isTrue (by rw [h]) else .isFalse (by simp [h])
    | .ok _, .error _ => .isFalse (by simp)
    | .error _, .ok _ => .isFalse (by simp)

/-- Result of one adapter call: the events it performed, the returned text or
raised error, and the sticky current model after the call. -/
structure AdapterResult where
  events : List AdapterEvent
  outcome : Except (List Char) String
  current_model : String
deriving DecidableEq

/-- `SmartTestGenerator._try_generate_with_fallback` (generator.py lines
112-166), for a given sticky current model.  When every fallback model also
fails, `raise last_error or Exception("All models failed and no fallback
available")` re-raises the retry loop's last error. -/
def try_generate_with_fallback (beh : String → Nat → Except (List Char) String)
    (current_model : String) (models : List String) (max_retries : Nat) :
    AdapterResult :=
  let r := retry_phase beh current_model max_retries
  match r.2 with
  | .success t => ⟨r.1, .ok t, current_model⟩
  | .raised e => ⟨r.1, .error e, current_model⟩
  | .fallThrough last_error =>
    let f := fallback_phase beh current_model models
    match f.2 with
    | some (t, m) => ⟨r.1 ++ f.1, .ok t, m⟩
    | none =>
      ⟨r.1 ++ f.1,
       .error (last_error.getD "All models failed and no fallback available".data),
       current_model⟩

/-- The seconds slept during a run, in order. -/
def sleepsOf (events : List AdapterEvent) : List Nat :=
  events.filterMap (fun e =>
    match e with
    | .sleep n => some n
    | .call _ _ => none)

/-! ## `generator.py` : `SmartTestGenerator.generate_tests_for_file`

Only the `try`/`except` around generation, post-processing and writing is
relevant to the error-handling claims; the generation outcome and the
normalizer are abstracted as `Except` values so that a fault inside either
step can be expressed (in the Python, any exception raised inside the `try`
block is caught and turned into `{'success': False, 'error': str(e)}`). -/

/-- The value `generate_tests_for_file` returns, together with what it wrote
to the test file (`none` when nothing was written). -/
structure GenFileResult where
  success : Bool
  test_file : Option String
  error : Option (List Char)
  written : Option (List Char)
deriving DecidableEq

/-- The `try` block of `SmartTestGenerator.generate_tests_for_file`
(generator.py lines 207-226): obtain the response text, strip it, post-process
it, write the result; any exception anywhere in the block yields
`{'success': False, 'error': str(e)}` and nothing is written. -/
def generate_tests_for_file (gen : Except (List Char) (List Char))
    (post : List Char → Except (List Char) (List Char))
    (output_path : String) : GenFileResult :=
  match gen with
  | .error e => ⟨false, none, some e, none⟩
  | .ok raw =>
    let test_code := pyStrip raw
    match post test_code with
    | .error e => ⟨false, none, some e, none⟩
    | .ok code => ⟨true, some output_path, none, some code⟩

/-! ## `cli.py` : the per-file regeneration loop and file collection of `main` -/

/-- The run-level configuration consumed by the regeneration loop. -/
structure CliArgs where
  max_regeneration_attempts : Nat
  regenerate_on_low_quality : Bool
  quality_threshold : String

/-- `quality_levels.get(q, 0)` with `quality_levels = {'low': 0, 'medium': 1,
'high': 2}` (applied to already-lowercased text in `main`). -/
def quality_level (q : String) : Nat :=
  if q = "low" then 0
  else if q = "medium" then 1
  else if q = "high" then 2
  else 0

/-- Python `str.lower()` on a `String`. -/
def pyLowerStr (s : String) : String :=
  String.mk (pyLower s.data)

/-- The `while attempt < max_attempts` loop of `cli.main` (cli.py lines
350-424) for one file, from a given attempt counter.  `oracle a` is the
outcome of the `a`-th (1-based) generate-then-validate cycle: `none` when
`generate_tests_for_file` reports failure (the loop breaks), `some report`
for the validation report otherwise.  Returns the number of
generate-then-validate cycles performed together with the final validation
report.  The recursion is structural on the number of remaining loop
iterations (the first explicit argument), which at every reachable call
equals `max_attempts - attempt`; when it is zero the guard
`attempt < max_attempts` (kept explicitly) has anyway decided the loop is
over. -/
def file_loop (args : CliArgs) (oracle : Nat → Option ValidationResult)
    (max_attempts : Nat) :
    Nat → Nat → Option ValidationResult → Nat × Option ValidationResult
  | 0, _, final_validation => (0, final_validation)
  | fuel + 1, attempt, final_validation =>
    if attempt < max_attempts then
      let a := attempt + 1
      match oracle a with
      | none => (1, final_validation)
      | some report =>
        let current_quality_level := quality_level (pyLowerStr report.quality)
        let threshold_quality_level := quality_level (pyLowerStr args.quality_threshold)
        let needs_regeneration :=
          args.regenerate_on_low_quality &&
          decide (current_quality_level < threshold_quality_level) &&
          decide (a < max_attempts)
        if needs_regeneration then
          let r := file_loop args oracle max_attempts fuel a (some report)
          (r.1 + 1, r.2)
        else (1, some report)
    else (0, final_validation)

/-- Per-file processing of `cli.main`: `max_attempts =
args.max_regeneration_attempts + 1` (the initial generation plus the
regenerations), starting with attempt counter 0 and no stored report. -/
def process_file (args : CliArgs) (oracle : Nat → Option ValidationResult) :
    Nat × Option ValidationResult :=
  file_loop args oracle (args.max_regeneration_attempts + 1)
    (args.max_regeneration_attempts + 1) 0 none

/-- The source-file collection of `cli.main` (cli.py lines 301-315): walk the
source tree (modelled as a list of `(directory, files-in-it)` pairs in walk
order), keep the files ending in `.c`, and skip any file whose basename is
exactly `main.c`. -/
def collect_c_files (walk : List (String × List String)) :
    List (String × String) :=
  walk.flatMap (fun rd =>
    (rd.2.filter (fun f => pyEndsWith ".c".data f.data && !(f = "main.c"))).map
      (fun f => (rd.1, f)))

/-- The whole-run driver of `cli.main`: process exactly the collected files,
in order, each with its own oracle. -/
def run_all (args : CliArgs) (walk : List (String × List String))
    (oracle : String → String → Nat → Option ValidationResult) :
    List ((String × String) × (Nat × Option ValidationResult)) :=
  (collect_c_files walk).map (fun rf => (rf, process_file args (oracle rf.1 rf.2)))

/-! ## Concrete data used by the theorems below -/

/-- A generated text declaring one test function (claim C2's input). -/
def normInput : List Char := "void test_a(void) {}".data

/-- An input on which removing an embedded `main` definition exposes a
negative numeric literal (claim C9). -/
def negExposeInput : List Char := "-12int main(void){}".data

/-- A temperature-mentioning test text asserting the literal 130.0. -/
def tempText130 : List Char :=
  "// temperature test\nTEST_ASSERT_FLOAT_WITHIN(0.1f, 130.0, t);".data

/-- The same test text with the literal 25.0. -/
def tempText25 : List Char :=
  "// temperature test\nTEST_ASSERT_FLOAT_WITHIN(0.1f, 25.0, t);".data

/-- The same test text with the literal 250.0. -/
def tempText250 : List Char :=
  "// temperature test\nTEST_ASSERT_FLOAT_WITHIN(0.1f, 250.0, t);".data

/-- A normalizer that faults on every input (claim C5). -/
def faultyNormalize : List Char → Except (List Char) (List Char) :=
  fun _ => .error "normalization fault".data

/-- A backend behaviour failing every call with a non-throttling error. -/
def behNonThrottling : String → Nat → Except (List Char) String :=
  fun _ _ => .error "invalid argument".data

/-- A backend behaviour for the stickiness scenario: the current model
`gemini-2.0-flash` always throttles, the earlier-listed `gemini-2.5-flash`
fails outright, and `gemini-2.5-pro` answers. -/
def behSticky : String → Nat → Except (List Char) String :=
  fun m _ =>
    if m = "gemini-2.0-flash" then .error "429 too many requests".data
    else if m = "gemini-2.5-flash" then .error "backend exploded".data
    else if m = "gemini-2.5-pro" then .ok "pro response"
    else .error "unused".data

/-- The behaviour of the following call in the same run: the sticky
`gemini-2.5-pro` answers at once. -/
def behStickyNext : String → Nat → Except (List Char) String :=
  fun m _ =>
    if m = "gemini-2.5-pro" then .ok "pro response 2" else .error "unused".data

/-- A backend behaviour that throttles every call of every model. -/
def behThrottle : String → Nat → Except (List Char) String :=
  fun _ _ => .error "429 too many requests".data

/-- A validation report scoring Low. -/
def lowReport : ValidationResult :=
  { compiles := false, realistic := true, quality := "Low",
    issues := ["Missing required Unity include: #include \"unity.h\"".data] }

/-- An oracle whose every generate-then-validate cycle scores Low. -/
def alwaysLowOracle : Nat → Option ValidationResult := fun _ => some lowReport

/-- A configuration with zero regeneration attempts, regeneration enabled and
a `high` threshold. -/
def strictArgs : CliArgs :=
  { max_regeneration_attempts := 0, regenerate_on_low_quality := true,
    quality_threshold := "high" }

/-! ## Claim C1 : the quality-tier rule -/

/-- C1: the quality tier is a total deterministic function of the report's
issue list and flags: the tier is `High` iff the issue list is empty and
`compiles` and `realistic` all hold; when the issue count is at most 2 and
`compiles` holds but the High condition fails, the tier is `Medium`; in every
other case it is `Low`. -/
theorem quality_tier_rule (r : ValidationResult) :
    (calculate_quality_rating r = "High" ↔
      r.issues = [] ∧ r.compiles = true ∧ r.realistic = true) ∧
    (r.issues.length ≤ 2 → r.compiles = true →
      ¬(r.issues = [] ∧ r.compiles = true ∧ r.realistic = true) →
      calculate_quality_rating r = "Medium") ∧
    (¬(r.issues = [] ∧ r.compiles = true ∧ r.realistic = true) →
      ¬(r.issues.length ≤ 2 ∧ r.compiles = true) →
      calculate_quality_rating r = "Low") := by
  have hMH : ¬(("Medium" : String) = "High") := by decide
  have hLH : ¬(("Low" : String) = "High") := by decide
  rcases r with ⟨c, re, q, iss⟩
  cases c <;> cases re <;>
    by_cases h0 : iss.length = 0 <;> by_cases h2 : iss.length ≤ 2 <;>
      simp_all [calculate_quality_rating, List.length_eq_zero] <;>
        (rw [if_neg (by omega)]; decide)

/-- Witness for C1 at concrete reports. -/
theorem quality_tier_rule_witness :
    calculate_quality_rating ⟨true, true, "High", []⟩ = "High" ∧
    calculate_quality_rating ⟨true, false, "High", ["issue".data]⟩ = "Medium" ∧
    calculate_quality_rating ⟨false, true, "High", []⟩ = "Low" :=
  ⟨(quality_tier_rule ⟨true, true, "High", []⟩).1.mpr ⟨rfl, rfl, rfl⟩,
   (quality_tier_rule ⟨true, false, "High", ["issue".data]⟩).2.1 (by decide) rfl
     (by simp),
   (quality_tier_rule ⟨false, true, "High", []⟩).2.2 (by simp) (by simp)⟩

/-! ## Claim C2 : idempotence of the output normalizer -/

set_option maxRecDepth 100000 in
/-- C2 counterexample: the normalizer is not idempotent.  On a text declaring
one test function, the second application differs from the first. -/
theorem post_process_not_idempotent :
    post_process_test_code [] (post_process_test_code [] normInput) ≠
      post_process_test_code [] normInput := by decide

set_option maxRecDepth 100000 in
/-- C2 amended: re-applying the normalizer strips the test runner it
synthesized (the `int main…{…}` removal pass matches it), leaves the runner's
two leading blank lines behind, and appends a fresh runner — so every
re-application inserts exactly two additional newline characters before the
runner and leaves the text otherwise unchanged. -/
theorem post_process_second_application :
    post_process_test_code [] normInput =
      "#include \"unity.h\"\nvoid test_a(void) {}".data ++
        unityMainFunction ["test_a".data] ∧
    post_process_test_code [] (post_process_test_code [] normInput) =
      "#include \"unity.h\"\nvoid test_a(void) {}\n\n".data ++
        unityMainFunction ["test_a".data] := ⟨by decide, by decide⟩

/-! ## Claim C9 : the negative-literal replacement -/

set_option maxRecDepth 100000 in
/-- C9 counterexample: the normalized output can still contain a negative
numeric literal.  On `-12int main(void){}` the replacement pass matches
nothing (`-12` ends at a word character), and the later `main`-definition
removal then strips the text after it, leaving `-12` as a full token of the
output. -/
theorem negative_literal_survives_normalization :
    has_negative_literal (post_process_test_code [] negExposeInput) = true := by
  decide

/-- Auxiliary: the rewrite drivers leave the empty text unchanged. -/
theorem rewriteScan_nil (step : List Char → Option (List Char × List Char)) :
    ∀ fuel, rewriteScan step fuel [] = [] := by
  intro fuel
  cases fuel <;> rfl

/-- C9 amended: the pass does replace every token that matches
`-\d+\.?\d*f?\b` with `0.0f` — a standalone minus sign followed by digits is
rewritten to `0.0f` whatever the digits, and so is a full `-digits.digitsf`
literal such as `-40.0f` after the whole normalizer — but the normalized
output may nevertheless contain negative numeric literals again, since a
later pass can expose a minus-digits sequence that did not match at
replacement time. -/
theorem negative_literals_replaced (ds : List Char) (h1 : ds ≠ [])
    (h2 : ∀ c ∈ ds, c.isDigit = true) :
    sub_negative_numbers ('-' :: ds) = "0.0f".data ∧
    post_process_test_code [] "-40.0f".data = "#include \"unity.h\"\n0.0f".data := by
  constructor
  · have ht : ds.takeWhile Char.isDigit = ds := List.takeWhile_eq_self_iff.mpr h2
    have hd : ds.dropWhile Char.isDigit = [] := List.dropWhile_eq_nil_iff.mpr h2
    have hstep : stepNeg ('-' :: ds) = some (zeroF, []) := by
      simp only [stepNeg, ht, hd]
      simp [List.isEmpty_iff, h1, isWordOpt]
    show rewriteScan stepNeg ('-' :: ds).length ('-' :: ds) = "0.0f".data
    rw [List.length_cons]
    rw [rewriteScan, hstep]
    simp [rewriteScan_nil, zeroF]
  · decide

/-- Witness for the amended C9 at the concrete digit string `12`. -/
theorem negative_literals_replaced_witness :
    sub_negative_numbers "-12".data = "0.0f".data :=
  (negative_literals_replaced ['1', '2'] (by decide) (by decide)).1

/-! ## Claim C4 : the temperature domain-range check -/

set_option maxRecDepth 100000 in
/-- C4 counterexample: on a temperature-mentioning test text asserting the
literal 130.0 the reality check appends no realism issue and leaves
`realistic` true — the check's cutoffs are 200 (high) and −100 (low), not
the declared domain bound 125. -/
theorem temp_130_not_flagged :
    (check_reality_tests tempText130 [] initValidationResult).realistic = true ∧
    (check_reality_tests tempText130 [] initValidationResult).issues = [] := by
  exact ⟨by decide, by decide⟩

set_option maxRecDepth 100000 in
/-- C4 amended: the domain-range check only flags temperature-quantity
literals above 200 (or below −100): a literal of 250 produces the
`unreasonably high` realism issue and sets `realistic = false`, while
literals of 130 and of 25 produce no issue and leave `realistic` unchanged. -/
theorem temp_range_check_cutoffs :
    (check_reality_tests tempText250 [] initValidationResult).realistic = false ∧
    (check_reality_tests tempText250 [] initValidationResult).issues =
      ["Temperature value 250.0 seems unreasonably high (valid range: -40°C to 125°C)".data] ∧
    (check_reality_tests tempText130 [] initValidationResult) = initValidationResult ∧
    (check_reality_tests tempText25 [] initValidationResult) = initValidationResult := by
  refine ⟨by decide, by decide, by decide, by decide⟩

/-! ## Claim C5 : fault during normalization -/

/-- C5 counterexample: when post-processing faults, the attempt returns
failure — the un-normalized text is not passed through and nothing is
written. -/
theorem normalization_fault_aborts_attempt :
    (generate_tests_for_file (.ok "RAW TEXT".data) faultyNormalize
      "tests/test_x.c").success = false ∧
    (generate_tests_for_file (.ok "RAW TEXT".data) faultyNormalize
      "tests/test_x.c").written = none :=
  ⟨rfl, rfl⟩

/-- C5 amended: an unexpected fault during the normalization rewrite is
caught by the attempt's `try`/`except` and makes the whole generation attempt
fail with that fault's message (`success = False`, no test file written); the
un-normalized text is not passed through. -/
theorem normalization_fault_fails_attempt (raw e : List Char)
    (post : List Char → Except (List Char) (List Char)) (path : String)
    (h : post (pyStrip raw) = .error e) :
    generate_tests_for_file (.ok raw) post path = ⟨false, none, some e, none⟩ := by
  simp [generate_tests_for_file, h]

/-- Witness for the amended C5 at a concrete faulting normalizer. -/
theorem normalization_fault_fails_attempt_witness :
    generate_tests_for_file (.ok "RAW TEXT".data) faultyNormalize "tests/test_x.c" =
      ⟨false, none, some "normalization fault".data, none⟩ :=
  normalization_fault_fails_attempt "RAW TEXT".data "normalization fault".data
    faultyNormalize "tests/test_x.c" rfl

/-! ## Claim C6 : non-throttling failures are raised immediately -/

/-- C6: a backend failure on the first try whose message matches none of the
throttling signal patterns is raised immediately to the caller: the adapter
makes exactly that one backend call — no retry on the same backend and no
fallback to any other backend — and the sticky model is unchanged. -/
theorem non_throttling_error_raised_immediately
    (beh : String → Nat → Except (List Char) String) (current : String)
    (models : List String) (max_retries : Nat) (e : List Char)
    (hR : 0 < max_retries) (hbeh : beh current 0 = .error e)
    (hrl : is_rate_limit (pyLower e) = false) :
    try_generate_with_fallback beh current models max_retries =
      ⟨[.call current false], .error e, current⟩ := by
  obtain ⟨fuel, hfuel⟩ : ∃ fuel, max_retries = fuel + 1 :=
    ⟨max_retries - 1, by omega⟩
  simp [try_generate_with_fallback, retry_phase, hfuel, retry_loop, hbeh, hrl]

/-- Witness for C6: a permanently failing backend with a non-throttling
message is raised directly. -/
theorem non_throttling_error_witness :
    try_generate_with_fallback behNonThrottling "gemini-2.5-flash" models_to_try 3 =
      ⟨[.call "gemini-2.5-flash" false], .error "invalid argument".data,
       "gemini-2.5-flash"⟩ :=
  non_throttling_error_raised_immediately behNonThrottling "gemini-2.5-flash"
    models_to_try 3 "invalid argument".data (by decide) rfl (by decide)

/-! ## Claim C7 : fallback order and backend stickiness under throttling -/

/-- When the current model throttles on every try, the retry loop always
falls through to the fallback loop (whatever the fuel and start index). -/
theorem retry_loop_all_throttle (beh : String → Nat → Except (List Char) String)
    (model : String) (max_retries : Nat)
    (h : ∀ i, i < max_retries →
      ∃ e, beh model i = .error e ∧ is_rate_limit (pyLower e) = true) :
    ∀ fuel attempt last_error, ∃ e',
      (retry_loop beh model max_retries fuel attempt last_error).2 =
        .fallThrough e' := by
  intro fuel
  induction fuel with
  | zero => intro attempt le; exact ⟨le, rfl⟩
  | succ fuel ih =>
    intro attempt le
    by_cases hlt : attempt < max_retries
    · obtain ⟨e, he, hrl⟩ := h attempt hlt
      by_cases hfin : attempt < max_retries - 1
      · obtain ⟨e', he'⟩ := ih (attempt + 1) (some e)
        exact ⟨e', by simp [retry_loop, hlt, he, hrl, hfin, he']⟩
      · exact ⟨some e, by simp [retry_loop, hlt, he, hrl, hfin]⟩
    · exact ⟨le, by simp [retry_loop, hlt]⟩

/-- The fallback loop skips the original model, tolerates any failing models
before `B`, and succeeds at the first model `B` that answers, which becomes
the new sticky model. -/
theorem fallback_phase_first_success
    (beh : String → Nat → Except (List Char) String) (original B : String)
    (t : String) (hBA : B ≠ original) (hB : beh B 0 = .ok t) :
    ∀ pre post, (∀ m ∈ pre, m = original ∨ ∃ e, beh m 0 = .error e) →
      (fallback_phase beh original (pre ++ B :: post)).2 = some (t, B) := by
  intro pre
  induction pre with
  | nil =>
    intro post _
    simp [fallback_phase, hBA, hB]
  | cons m pre ih =>
    intro post hpre
    rcases hpre m (by simp) with hm | ⟨e, he⟩
    · subst hm
      simpa [fallback_phase] using
        ih post (fun x hx => hpre x (List.mem_cons_of_mem _ hx))
    · by_cases hmo : m = original
      · simpa [fallback_phase, hmo] using
          ih post (fun x hx => hpre x (List.mem_cons_of_mem _ hx))
      · simpa [fallback_phase, hmo, he] using
          ih post (fun x hx => hpre x (List.mem_cons_of_mem _ hx))

/-- A call whose current model answers on the first try returns that answer
after exactly one backend call and keeps the model sticky. -/
theorem adapter_first_try_success
    (beh : String → Nat → Except (List Char) String) (model : String)
    (models : List String) (max_retries : Nat) (t : String)
    (hR : 0 < max_retries) (h : beh model 0 = .ok t) :
    try_generate_with_fallback beh model models max_retries =
      ⟨[.call model true], .ok t, model⟩ := by
  obtain ⟨fuel, hfuel⟩ : ∃ fuel, max_retries = fuel + 1 :=
    ⟨max_retries - 1, by omega⟩
  simp [try_generate_with_fallback, retry_phase, hfuel, retry_loop, h]

/-- C7: when the current backend `A` throttles on all local retries of a
call, the adapter iterates the other backends in list order, one call each
(models before `B` may be `A` itself, which is skipped, or fail); the first
backend `B` that succeeds supplies the returned response and becomes the new
sticky current model, and the next call in the run goes to `B` (and, `B`
answering, uses `B` alone). -/
theorem backend_stickiness_under_throttling
    (beh beh2 : String → Nat → Except (List Char) String)
    (A B : String) (pre post : List String) (max_retries : Nat) (t t2 : String)
    (hR : 0 < max_retries)
    (hthrottle : ∀ i, i < max_retries →
      ∃ e, beh A i = .error e ∧ is_rate_limit (pyLower e) = true)
    (hBA : B ≠ A)
    (hpre : ∀ m ∈ pre, m = A ∨ ∃ e, beh m 0 = .error e)
    (hB : beh B 0 = .ok t)
    (hB2 : beh2 B 0 = .ok t2) :
    (try_generate_with_fallback beh A (pre ++ B :: post) max_retries).outcome =
      .ok t ∧
    (try_generate_with_fallback beh A (pre ++ B :: post) max_retries).current_model =
      B ∧
    try_generate_with_fallback beh2
      ((try_generate_with_fallback beh A (pre ++ B :: post) max_retries).current_model)
      (pre ++ B :: post) max_retries = ⟨[.call B true], .ok t2, B⟩ := by
  obtain ⟨e', hft⟩ :=
    retry_loop_all_throttle beh A max_retries hthrottle max_retries 0 none
  have hfb := fallback_phase_first_success beh A B t hBA hB pre post hpre
  have hmain :
      (try_generate_with_fallback beh A (pre ++ B :: post) max_retries).outcome =
        .ok t ∧
      (try_generate_with_fallback beh A (pre ++ B :: post) max_retries).current_model =
        B := by
    rcases hrl : retry_phase beh A max_retries with ⟨evs, out⟩
    have hout : out = .fallThrough e' := by
      have h2 := hft
      rw [show retry_loop beh A max_retries max_retries 0 none =
        retry_phase beh A max_retries from rfl, hrl] at h2
      exact h2
    subst hout
    rcases hfp : fallback_phase beh A (pre ++ B :: post) with ⟨fevs, fout⟩
    have hfout : fout = some (t, B) := by rw [hfp] at hfb; exact hfb
    subst hfout
    constructor <;> simp [try_generate_with_fallback, hrl, hfp]
  refine ⟨hmain.1, hmain.2, ?_⟩
  rw [hmain.2]
  exact adapter_first_try_success beh2 B (pre ++ B :: post) max_retries t2 hR hB2

/-- Witness for C7: the sticky model `gemini-2.0-flash` throttles on all 3
retries; the fallback walks the full preference list from the top, skips
nothing before `gemini-2.5-flash` (which fails outright), succeeds at
`gemini-2.5-pro`, and the next call uses `gemini-2.5-pro` directly. -/
theorem backend_stickiness_witness :
    (try_generate_with_fallback behSticky "gemini-2.0-flash" models_to_try 3).outcome =
      .ok "pro response" ∧
    (try_generate_with_fallback behSticky "gemini-2.0-flash" models_to_try 3).current_model =
      "gemini-2.5-pro" ∧
    try_generate_with_fallback behStickyNext "gemini-2.5-pro" models_to_try 3 =
      ⟨[.call "gemini-2.5-pro" true], .ok "pro response 2", "gemini-2.5-pro"⟩ := by
  have h := backend_stickiness_under_throttling behSticky behStickyNext
    "gemini-2.0-flash" "gemini-2.5-pro" ["gemini-2.5-flash"]
    ["gemini-2.0-flash", "gemini-1.5-flash", "gemini-1.5-pro", "gemini-pro"] 3
    "pro response" "pro response 2" (by decide)
    (fun i _ => ⟨"429 too many requests".data, rfl, by decide⟩)
    (by decide)
    (by intro m hm; simp at hm; subst hm; exact .inr ⟨"backend exploded".data, rfl⟩)
    rfl rfl
  have h3 := h.2.2
  rw [h.2.1] at h3
  exact ⟨h.1, h.2.1, h3⟩

/-! ## Claim C8 : the backoff delay schedule -/

/-- The slept seconds of a concatenation of event lists. -/
theorem sleepsOf_append (a b : List AdapterEvent) :
    sleepsOf (a ++ b) = sleepsOf a ++ sleepsOf b :=
  List.filterMap_append a b _

/-- A backend call contributes no slept seconds. -/
theorem sleepsOf_cons_call (m : String) (b : Bool) (evs : List AdapterEvent) :
    sleepsOf (.call m b :: evs) = sleepsOf evs := rfl

/-- A sleep event contributes its seconds. -/
theorem sleepsOf_cons_sleep (n : Nat) (evs : List AdapterEvent) :
    sleepsOf (.sleep n :: evs) = n :: sleepsOf evs := rfl

/-- Under permanent throttling the retry loop sleeps exactly
`wait_time attempt, wait_time (attempt+1), …` up to the second-to-last try. -/
theorem retry_loop_sleeps (beh : String → Nat → Except (List Char) String)
    (model : String) (max_retries : Nat)
    (h : ∀ i, i < max_retries →
      ∃ e, beh model i = .error e ∧ is_rate_limit (pyLower e) = true) :
    ∀ fuel attempt last_error, max_retries - attempt ≤ fuel →
      sleepsOf (retry_loop beh model max_retries fuel attempt last_error).1 =
        (List.range' attempt (max_retries - 1 - attempt)).map wait_time := by
  intro fuel
  induction fuel with
  | zero =>
    intro attempt le hfuel
    have h0 : max_retries - 1 - attempt = 0 := by omega
    simp [retry_loop, h0, sleepsOf]
  | succ fuel ih =>
    intro attempt le hfuel
    by_cases hlt : attempt < max_retries
    · obtain ⟨e, he, hrl⟩ := h attempt hlt
      by_cases hfin : attempt < max_retries - 1
      · have hn : max_retries - 1 - attempt = (max_retries - 1 - (attempt + 1)) + 1 := by
          omega
        have hrec := ih (attempt + 1) (some e) (by omega)
        simp [retry_loop, hlt, he, hrl, hfin, sleepsOf_cons_call, sleepsOf_cons_sleep,
          hn, List.range'_succ, hrec]
      · have h0 : max_retries - 1 - attempt = 0 := by omega
        simp [retry_loop, hlt, he, hrl, hfin, h0, sleepsOf]
    · have h0 : max_retries - 1 - attempt = 0 := by omega
      simp [retry_loop, hlt, h0, sleepsOf]

/-- The fallback loop never sleeps. -/
theorem fallback_phase_no_sleeps (beh : String → Nat → Except (List Char) String)
    (original : String) :
    ∀ ms, sleepsOf (fallback_phase beh original ms).1 = [] := by
  intro ms
  induction ms with
  | nil => simp [fallback_phase, sleepsOf]
  | cons m rest ih =>
    by_cases hmo : m = original
    · simp [fallback_phase, hmo, ih]
    · cases hb : beh m 0 with
      | ok t => simp [fallback_phase, hmo, hb, sleepsOf]
      | error e => simp [fallback_phase, hmo, hb, sleepsOf_cons_call, ih]

/-- C8 amended: when every try throttles, the adapter sleeps
`wait_time 0, …, wait_time (R−2)` before the retries, where
`wait_time i = 2^i + 1` seconds — a near-doubling schedule satisfying
`wait_time (i+1) = 2·wait_time i − 1`, not an exact doubling. -/
theorem backoff_delay_schedule (beh : String → Nat → Except (List Char) String)
    (model : String) (models : List String) (max_retries : Nat)
    (h : ∀ i, i < max_retries →
      ∃ e, beh model i = .error e ∧ is_rate_limit (pyLower e) = true) :
    sleepsOf (try_generate_with_fallback beh model models max_retries).events =
      (List.range (max_retries - 1)).map wait_time ∧
    ∀ i, wait_time (i + 1) = 2 * wait_time i - 1 := by
  constructor
  · obtain ⟨e', hft⟩ :=
      retry_loop_all_throttle beh model max_retries h max_retries 0 none
    have hs := retry_loop_sleeps beh model max_retries h max_retries 0 none
      (by omega)
    rcases hrl : retry_phase beh model max_retries with ⟨evs, out⟩
    have hout : out = .fallThrough e' := by
      have h2 := hft
      rw [show retry_loop beh model max_retries max_retries 0 none =
        retry_phase beh model max_retries from rfl, hrl] at h2
      exact h2
    subst hout
    have hevs : sleepsOf evs = (List.range' 0 (max_retries - 1)).map wait_time := by
      have h3 := hs
      rw [show retry_loop beh model max_retries max_retries 0 none =
        retry_phase beh model max_retries from rfl, hrl] at h3
      simpa using h3
    rcases hfp : fallback_phase beh model models with ⟨fevs, fout⟩
    have hf0 : sleepsOf fevs = [] := by
      have h4 := fallback_phase_no_sleeps beh model models
      rw [hfp] at h4
      exact h4
    rcases fout with _ | ⟨t, m⟩ <;>
      simp [try_generate_with_fallback, hrl, hfp, sleepsOf_append, hevs, hf0,
        List.range_eq_range']
  · intro i
    have hp : 2 ^ (i + 1) = 2 * 2 ^ i := by rw [pow_succ]; ring
    simp only [wait_time, hp]
    omega

/-- C8 counterexample: with three retries the slept delays are
`wait_time 0 = 2` and `wait_time 1 = 3` seconds; the second delay is not
twice the first. -/
theorem backoff_not_doubling :
    sleepsOf (try_generate_with_fallback behThrottle "gemini-2.5-flash"
      ["gemini-2.5-flash"] 3).events = [wait_time 0, wait_time 1] ∧
    wait_time 1 ≠ 2 * wait_time 0 :=
  ⟨by decide, by decide⟩

/-- Witness for the amended C8 under a permanently throttling backend. -/
theorem backoff_delay_schedule_witness :
    sleepsOf (try_generate_with_fallback behThrottle "gemini-2.5-flash"
      ["gemini-2.5-flash"] 3).events = (List.range 2).map wait_time ∧
    wait_time 1 = 2 * wait_time 0 - 1 := by
  have h := backoff_delay_schedule behThrottle "gemini-2.5-flash"
    ["gemini-2.5-flash"] 3
    (fun i _ => ⟨"429 too many requests".data, rfl, by decide⟩)
  exact ⟨h.1, h.2 0⟩

/-! ## Claim C3 : the attempt bound of the regeneration controller -/

/-- The per-file loop performs at most `fuel` generate-then-validate cycles. -/
theorem file_loop_cycles_le (args : CliArgs) (oracle : Nat → Option ValidationResult)
    (max_attempts : Nat) :
    ∀ fuel attempt fin, (file_loop args oracle max_attempts fuel attempt fin).1 ≤ fuel := by
  intro fuel
  induction fuel with
  | zero => intro attempt fin; simp [file_loop]
  | succ fuel ih =>
    intro attempt fin
    by_cases hlt : attempt < max_attempts
    · simp only [file_loop, if_pos hlt]
      cases oracle (attempt + 1) with
      | none => simp
      | some report =>
        by_cases hneeds :
            (args.regenerate_on_low_quality &&
              decide (quality_level (pyLowerStr report.quality) <
                quality_level (pyLowerStr args.quality_threshold)) &&
              decide (attempt + 1 < max_attempts)) = true
        · simp only [hneeds, if_true]
          have := ih (attempt + 1) (some report)
          omega
        · simp only [Bool.not_eq_true] at hneeds
          simp [hneeds]
    · simp [file_loop, hlt]

set_option maxRecDepth 10000 in
/-- C3 counterexample: with the configured maximum regeneration attempts set
to `M = 0` (regeneration enabled, threshold `high`) and every report scoring
Low, the controller still performs one generate-then-validate cycle — more
than `M`. -/
theorem attempts_exceed_configured_maximum :
    (process_file strictArgs alwaysLowOracle).1 = 1 ∧
    ¬((process_file strictArgs alwaysLowOracle).1 ≤
        strictArgs.max_regeneration_attempts) :=
  ⟨by decide, by decide⟩

/-- C3 amended: for a configured maximum regeneration attempts `M`, the
controller performs at most `M + 1` generate-then-validate cycles per file
(the initial generation plus up to `M` regenerations), even when every
attempt's report scores Low. -/
theorem bounded_attempts (args : CliArgs) (oracle : Nat → Option ValidationResult) :
    (process_file args oracle).1 ≤ args.max_regeneration_attempts + 1 :=
  file_loop_cycles_le args oracle (args.max_regeneration_attempts + 1)
    (args.max_regeneration_attempts + 1) 0 none

/-! ## Claim C10 : exclusion of `main.c` -/

/-- C10: a file whose basename is exactly `main.c` is never collected and so
never processed — no cycle count or validation report is ever produced for
it — while every other file ending in `.c` under the walked source tree is
collected and processed. -/
theorem main_c_excluded (args : CliArgs) (walk : List (String × List String))
    (oracle : String → String → Nat → Option ValidationResult) :
    (∀ entry ∈ run_all args walk oracle, entry.1.2 ≠ "main.c") ∧
    (∀ root files f, (root, files) ∈ walk → f ∈ files →
      pyEndsWith ".c".data f.data = true → f ≠ "main.c" →
      ((root, f) ∈ collect_c_files walk ∧
       ((root, f), process_file args (oracle root f)) ∈ run_all args walk oracle)) := by
  constructor
  · intro entry hentry
    rcases List.mem_map.mp hentry with ⟨rf, hrf, hentry'⟩
    rcases List.mem_flatMap.mp hrf with ⟨rd, _, hrf2⟩
    rcases List.mem_map.mp hrf2 with ⟨f, hf, hrf3⟩
    have hfcond := (List.mem_filter.mp hf).2
    subst hentry'
    subst hrf3
    simp only [Bool.and_eq_true, bne_iff_ne, ne_eq] at hfcond
    intro hcontra
    rcases hfcond with ⟨_, hne⟩
    simp only [Bool.not_eq_true', decide_eq_false_iff_not] at hne
    exact hne hcontra
  · intro root files f hwalk hf hc hne
    have hmem : (root, f) ∈ collect_c_files walk := by
      apply List.mem_flatMap.mpr
      refine ⟨(root, files), hwalk, ?_⟩
      apply List.mem_map.mpr
      refine ⟨f, ?_, rfl⟩
      apply List.mem_filter.mpr
      refine ⟨hf, ?_⟩
      simp [hc, hne]
    exact ⟨hmem, List.mem_map.mpr ⟨(root, f), hmem, rfl⟩⟩

/-- Witness for C10 on a concrete walk: `main.c` is skipped, `sensor.c` and a
nested `util.c` are processed. -/
theorem main_c_excluded_witness :
    ((("src", "sensor.c") ∈ collect_c_files
        [("src", ["main.c", "sensor.c", "sensor.h"]), ("src/util", ["util.c"])]) ∧
     (("src/util", "util.c") ∈ collect_c_files
        [("src", ["main.c", "sensor.c", "sensor.h"]), ("src/util", ["util.c"])])) ∧
    (∀ entry ∈ run_all strictArgs
        [("src", ["main.c", "sensor.c", "sensor.h"]), ("src/util", ["util.c"])]
        (fun _ _ => alwaysLowOracle), entry.1.2 ≠ "main.c") := by
  have h := main_c_excluded strictArgs
    [("src", ["main.c", "sensor.c", "sensor.h"]), ("src/util", ["util.c"])]
    (fun _ _ => alwaysLowOracle)
  refine ⟨⟨?_, ?_⟩, h.1⟩
  · exact (h.2 "src" ["main.c", "sensor.c", "sensor.h"] "sensor.c" (by simp)
      (by simp) (by decide) (by decide)).1
  · exact (h.2 "src/util" ["util.c"] "util.c" (by simp) (by simp)
      (by decide) (by decide)).1

/-- Witness for the amended C3 at the concrete configuration `M = 0` with an
always-Low oracle. -/
theorem bounded_attempts_witness :
    (process_file strictArgs alwaysLowOracle).1 ≤
      strictArgs.max_regeneration_attempts + 1 :=
  bounded_attempts strictArgs alwaysLowOracle
